import Mathlib

/-!
Shallow embedding of `safehttp/plugins/xsrf/xsrf.go` from google/go-safeweb:
a Cross-Site Request Forgery protection interceptor with two strategies
(the Default double-submit-cookie + HMAC-token strategy, and the
"Angular" cookie-to-header strategy).

The surrounding `safehttp` framework types (cookies, requests, forms,
response writers) and the external token codec `golang.org/x/net/xsrftoken`
are not part of the analysed file; they are modelled from the specification,
as noted on each such definition.
-/

namespace Xsrf

/-- Modelled from the spec: HTTP status codes used by the interceptor
(`safehttp.StatusOK` etc. of the framework). -/
abbrev StatusOK : Nat := 200

/-- Modelled from the spec: the Bad Request status code. -/
abbrev StatusBadRequest : Nat := 400

/-- Modelled from the spec: the Unauthorized status code. -/
abbrev StatusUnauthorized : Nat := 401

/-- Modelled from the spec: the Forbidden status code. -/
abbrev StatusForbidden : Nat := 403

/-- Modelled from the spec: the Internal Server Error status code. -/
abbrev StatusInternalServerError : Nat := 500

/-- Modelled from the spec: the framework's HTTP method name constants. -/
abbrev MethodGet : String := "GET"

/-- Modelled from the spec: the HEAD method name constant. -/
abbrev MethodHead : String := "HEAD"

/-- Modelled from the spec: the OPTIONS method name constant. -/
abbrev MethodOptions : String := "OPTIONS"

/-- Modelled from the spec: `safehttp.SameSite` modes for cookies. -/
inductive SameSite
  | defaultMode
  | laxMode
  | strictMode
  | noneMode
deriving DecidableEq, Repr

/-- Modelled from the spec: a `safehttp.Cookie` with the attribute surface the
core uses: value, SameSite mode, Path, Max-Age, HTTP-only flag. -/
structure Cookie where
  name : String
  value : String
  sameSite : SameSite
  path : String
  maxAge : Option Nat
  httpOnly : Bool
deriving DecidableEq, Repr

/-- Modelled from the spec: `safehttp.NewCookie` creates a cookie with safe
defaults, in particular HTTP-only enabled. -/
def NewCookie (name value : String) : Cookie :=
  { name := name, value := value, sameSite := SameSite.laxMode,
    path := "", maxAge := none, httpOnly := true }

/-- Modelled from the spec: setter for the cookie's SameSite attribute. -/
def Cookie.SetSameSite (c : Cookie) (s : SameSite) : Cookie :=
  { c with sameSite := s }

/-- Modelled from the spec: setter for the cookie's Path attribute. -/
def Cookie.SetPath (c : Cookie) (p : String) : Cookie :=
  { c with path := p }

/-- Modelled from the spec: setter for the cookie's Max-Age attribute. -/
def Cookie.SetMaxAge (c : Cookie) (n : Nat) : Cookie :=
  { c with maxAge := some n }

/-- Modelled from the spec: makes the cookie accessible to JavaScript by
clearing its HTTP-only flag. -/
def Cookie.DisableHTTPOnly (c : Cookie) : Cookie :=
  { c with httpOnly := false }

/-- Modelled from the spec: accessor for the cookie's value. -/
def Cookie.Value (c : Cookie) : String :=
  c.value

/-- Modelled from the spec: token strings of the external HMAC codec
`golang.org/x/net/xsrftoken`, viewed up to the codec's ideal functionality.
A token string is either the empty string, a string that is not a codec
output (malformed), or the codec output `mac key userID actionID issued`
produced by `Generate key userID actionID` at time `issued`; the HMAC
binds the output to exactly that triple and timestamp. -/
inductive TokenStr
  | empty
  | malformed
  | mac (key userID actionID : String) (issued : Nat)
deriving DecidableEq, Repr

namespace xsrftoken

/-- Modelled from the spec: the codec's validity window (time-bounded,
e.g. 24 hours), in seconds. -/
def Timeout : Nat := 86400

/-- Modelled from the spec: `xsrftoken.Generate(key, userID, actionID)`
produces a fresh token bound to the triple and the generation time. -/
def Generate (key userID actionID : String) (now : Nat) : TokenStr :=
  TokenStr.mac key userID actionID now

/-- Modelled from the spec: `xsrftoken.Valid(token, key, userID, actionID)`
recomputes and compares; it rejects malformed tokens, tokens for a different
triple, and tokens outside the validity window; it never crashes. -/
def Valid (tok : TokenStr) (key userID actionID : String) (now : Nat) : Bool :=
  match tok with
  | TokenStr.mac k u a issued =>
      k == key && u == userID && a == actionID &&
        decide (issued ≤ now) && decide (now < issued + Timeout)
  | _ => false

end xsrftoken

/-- Modelled from the spec: a parsed form. `values` maps field names to token
strings (the only fields this core reads); `err` is the form's sticky accessor
error, reported by `Form.Err`. -/
structure Form where
  values : List (String × TokenStr)
  err : Bool
deriving DecidableEq, Repr

/-- Modelled from the spec: the string accessor `Form.String(param, default)` —
returns the field's value, or the explicit default when the field is absent. -/
def Form.String (f : Form) (param : String) (defaultValue : TokenStr) : TokenStr :=
  match f.values.find? (fun kv => kv.1 == param) with
  | some kv => kv.2
  | none => defaultValue

/-- Modelled from the spec: a request URL exposing its path. -/
structure URL where
  path : String
deriving DecidableEq, Repr

/-- Modelled from the spec: accessor for the URL's path. -/
def URL.Path (u : URL) : String :=
  u.path

/-- Modelled from the spec: request headers with `Get` returning the header's
value, or the empty string when absent. -/
structure Header where
  entries : List (String × String)
deriving DecidableEq, Repr

/-- Modelled from the spec: read a header by name; absent headers read as "". -/
def Header.Get (h : Header) (name : String) : String :=
  match h.entries.find? (fun kv => kv.1 == name) with
  | some kv => kv.2
  | none => ""

/-- Modelled from the spec: a `safehttp.IncomingRequest` restricted to the
accessors this core consumes: method, URL path, named cookies, headers, the
URL-encoded form body (`none` when it fails to parse as such) and the
multipart form body under a byte-size cap (`none` when that parse fails). -/
structure IncomingRequest where
  method : String
  url : URL
  cookies : List Cookie
  header : Header
  postForm : Option Form
  multipartForm : Nat → Option Form

/-- Modelled from the spec: accessor for the request's method. -/
def IncomingRequest.Method (r : IncomingRequest) : String :=
  r.method

/-- Modelled from the spec: `r.Cookie(name)` returns the first cookie of that
name; its error return is modelled by `none`. -/
def IncomingRequest.Cookie (r : IncomingRequest) (name : String) : Option Cookie :=
  r.cookies.find? (fun c => c.name == name)

/-- Modelled from the spec: `r.PostForm()` parses the body as a URL-encoded
form; its error return is modelled by `none`. -/
def IncomingRequest.PostForm (r : IncomingRequest) : Option Form :=
  r.postForm

/-- Modelled from the spec: `r.MultipartForm(maxMemory)` parses the body as a
size-capped multipart form; its error return is modelled by `none`. -/
def IncomingRequest.MultipartForm (r : IncomingRequest) (maxMemory : Nat) : Option Form :=
  r.multipartForm maxMemory

/-- Modelled from the spec: the process-wide cryptographically-secure random
source. `rand n` is the outcome of `crypto/rand.Read` on an `n`-byte buffer:
`some bytes` on success, `none` on failure. -/
abbrev RandSource := Nat → Option (List Nat)

/-- The standard base64 alphabet used by `encoding/base64.StdEncoding`. -/
def base64Alphabet : List Char :=
  "ABCDEFGHIJKLMNOPQRSTUVWXYZabcdefghijklmnopqrstuvwxyz0123456789+/".toList

/-- Character of the standard base64 alphabet at index `n`. -/
def b64char (n : Nat) : Char :=
  base64Alphabet.getD n 'A'

/-- `encoding/base64.StdEncoding.EncodeToString` on a byte sequence
(each input is a byte, i.e. `< 256`), with standard `=` padding. -/
def base64Encode : List Nat → String
  | [] => ""
  | [a] =>
      String.mk [b64char (a / 4), b64char (a % 4 * 16), '=', '=']
  | [a, b] =>
      String.mk [b64char (a / 4), b64char (a % 4 * 16 + b / 16),
        b64char (b % 16 * 4), '=']
  | a :: b :: c :: rest =>
      String.mk [b64char (a / 4), b64char (a % 4 * 16 + b / 16),
        b64char (b % 16 * 4 + c / 64), b64char (c % 64)] ++ base64Encode rest

/-- `statePreservingMethods`: the method → bool lookup map of xsrf.go, true
exactly on GET, HEAD and OPTIONS. -/
def statePreservingMethods (m : String) : Bool :=
  m == MethodGet || m == MethodHead || m == MethodOptions

/-- `defaultData` of xsrf.go: the Default strategy's generated payload. -/
structure defaultData where
  cookieID : Cookie
  token : TokenStr
  setCookie : Bool
deriving DecidableEq, Repr

/-- `angularData` of xsrf.go: the Angular strategy's generated payload. -/
structure angularData where
  tokCookie : Cookie
  setCookie : Bool
deriving DecidableEq, Repr

/-- `GeneratedData` of xsrf.go: the opaque payload passed from a Generator to
an Injector; at runtime it is one of the two strategies' payload types. -/
inductive GeneratedData
  | default (d : defaultData)
  | angular (d : angularData)
deriving DecidableEq, Repr

/-- `defaultGenerator` of xsrf.go. -/
structure defaultGenerator where
  secretAppKey : String
  cookieIDKey : String
deriving DecidableEq, Repr

/-- `defaultGenerator.Generate` of xsrf.go (lines 125-141). The random source
and the current time are explicit parameters of the embedding. -/
def defaultGenerator.Generate (g : defaultGenerator) (r : IncomingRequest)
    (rand : RandSource) (now : Nat) : Option GeneratedData :=
  match r.Cookie g.cookieIDKey with
  | some c =>
      some (GeneratedData.default
        { cookieID := c,
          token := xsrftoken.Generate g.secretAppKey c.Value r.url.Path now,
          setCookie := false })
  | none =>
      match rand 20 with
      | none => none
      | some buf =>
          let c := (NewCookie g.cookieIDKey (base64Encode buf)).SetSameSite
            SameSite.strictMode
          some (GeneratedData.default
            { cookieID := c,
              token := xsrftoken.Generate g.secretAppKey c.Value r.url.Path now,
              setCookie := true })

/-- `defaultChecker` of xsrf.go. -/
structure defaultChecker where
  secretAppKey : String
  cookieIDKey : String
  tokenKey : String
deriving DecidableEq, Repr

/-- `defaultChecker.Check` of xsrf.go (lines 149-180). -/
def defaultChecker.Check (c : defaultChecker) (r : IncomingRequest)
    (now : Nat) : Nat :=
  if statePreservingMethods r.Method then StatusOK
  else
    match r.Cookie c.cookieIDKey with
    | none => StatusForbidden
    | some cookie =>
      match (match r.PostForm with
             | some f => some f
             | none => r.MultipartForm (32 <<< 20)) with
      | none => StatusBadRequest
      | some f =>
        let tok := f.String c.tokenKey TokenStr.empty
        if f.err = true ∨ tok = TokenStr.empty then StatusUnauthorized
        else if !(xsrftoken.Valid tok c.secretAppKey cookie.Value r.url.Path now)
          then StatusForbidden
        else StatusOK

/-- `defaultInjector` of xsrf.go. -/
structure defaultInjector where
deriving DecidableEq, Repr

/-- Modelled from the spec: the state of a `safehttp.ResponseWriter` this core
mutates — the cookies marked for setting on the response. -/
structure ResponseWriter where
  setCookies : List Cookie
deriving DecidableEq, Repr

/-- Modelled from the spec: the outgoing `safehttp.Response`: either a
template-backed response exposing a mutable name → token-function map, or any
other response. -/
inductive Response
  | template (funcMap : List (String × TokenStr))
  | other
deriving DecidableEq, Repr

/-- Map assignment on a name → token-function map (`FuncMap[k] = v`). -/
def funcMapSet (m : List (String × TokenStr)) (k : String) (v : TokenStr) :
    List (String × TokenStr) :=
  (k, v) :: m.filter (fun kv => kv.1 ≠ k)

/-- `defaultInjector.Inject` of xsrf.go (lines 184-204): returns the updated
writer and response on success, `none` on the "invalid data received" error. -/
def defaultInjector.Inject (_i : defaultInjector) (resp : Response)
    (w : ResponseWriter) (data : GeneratedData) :
    Option (ResponseWriter × Response) :=
  match data with
  | GeneratedData.angular _ => none
  | GeneratedData.default d =>
      let w' := if d.setCookie then
          { w with setCookies := w.setCookies ++ [d.cookieID] }
        else w
      match resp with
      | Response.other => some (w', resp)
      | Response.template fm =>
          some (w', Response.template (funcMapSet fm "XSRFToken" d.token))

/-- `angularGenerator` of xsrf.go. -/
structure angularGenerator where
  tokenCookieName : String
deriving DecidableEq, Repr

/-- `angularGenerator.Generate` of xsrf.go (lines 215-236). -/
def angularGenerator.Generate (g : angularGenerator) (r : IncomingRequest)
    (rand : RandSource) : Option GeneratedData :=
  match r.Cookie g.tokenCookieName with
  | some c => some (GeneratedData.angular { tokCookie := c, setCookie := false })
  | none =>
      match rand 20 with
      | none => none
      | some tok =>
          let c := ((((NewCookie g.tokenCookieName
            (base64Encode tok)).SetSameSite
              SameSite.strictMode).SetPath "/").SetMaxAge 86400).DisableHTTPOnly
          some (GeneratedData.angular { tokCookie := c, setCookie := true })

/-- `angularChecker` of xsrf.go. -/
structure angularChecker where
  tokenCookieName : String
  tokenHeaderName : String
deriving DecidableEq, Repr

/-- `angularChecker.Check` of xsrf.go (lines 243-256). -/
def angularChecker.Check (c : angularChecker) (r : IncomingRequest) : Nat :=
  if statePreservingMethods r.Method then StatusOK
  else
    match r.Cookie c.tokenCookieName with
    | none => StatusForbidden
    | some cookie =>
      let tok := r.header.Get c.tokenHeaderName
      if tok = "" ∨ tok ≠ cookie.Value then StatusUnauthorized
      else StatusOK

/-- `angularInjector` of xsrf.go. -/
structure angularInjector where
deriving DecidableEq, Repr

/-- `angularInjector.Inject` of xsrf.go (lines 260-271). -/
def angularInjector.Inject (_i : angularInjector) (resp : Response)
    (w : ResponseWriter) (data : GeneratedData) :
    Option (ResponseWriter × Response) :=
  match data with
  | GeneratedData.default _ => none
  | GeneratedData.angular d =>
      let w' := if d.setCookie then
          { w with setCookies := w.setCookies ++ [d.tokCookie] }
        else w
      some (w', resp)

/-- The `Generator` interface of xsrf.go, closed over its two implementations
in the analysed file. -/
inductive Generator
  | dflt (g : defaultGenerator)
  | ang (g : angularGenerator)
deriving DecidableEq, Repr

/-- Interface dispatch of `Generator.Generate`. -/
def Generator.Generate : Generator → IncomingRequest → RandSource → Nat →
    Option GeneratedData
  | Generator.dflt g, r, rand, now => g.Generate r rand now
  | Generator.ang g, r, rand, _ => g.Generate r rand

/-- The `Checker` interface of xsrf.go, closed over its two implementations. -/
inductive Checker
  | dflt (c : defaultChecker)
  | ang (c : angularChecker)
deriving DecidableEq, Repr

/-- Interface dispatch of `Checker.Check`. -/
def Checker.Check : Checker → IncomingRequest → Nat → Nat
  | Checker.dflt c, r, now => c.Check r now
  | Checker.ang c, r, _ => c.Check r

/-- The `Injector` interface of xsrf.go, closed over its two implementations. -/
inductive Injector
  | dflt (i : defaultInjector)
  | ang (i : angularInjector)
deriving DecidableEq, Repr

/-- Interface dispatch of `Injector.Inject`. -/
def Injector.Inject : Injector → Response → ResponseWriter → GeneratedData →
    Option (ResponseWriter × Response)
  | Injector.dflt i, resp, w, data => i.Inject resp w data
  | Injector.ang i, resp, w, data => i.Inject resp w data

/-- `Interceptor` of xsrf.go. -/
structure Interceptor where
  secretAppKey : String
  g : Generator
  c : Checker
  i : Injector
deriving DecidableEq, Repr

/-- `New` of xsrf.go: constructor with an explicit strategy triple. -/
def New (key : String) (g : Generator) (c : Checker) (i : Injector) :
    Interceptor :=
  { secretAppKey := key, g := g, c := c, i := i }

/-- `Default` of xsrf.go: the Default strategy wired with the fixed cookie and
token field names. -/
def Default (key : String) : Interceptor :=
  { secretAppKey := key,
    g := Generator.dflt { secretAppKey := key, cookieIDKey := "xsrf-cookie" },
    c := Checker.dflt { secretAppKey := key, cookieIDKey := "xsrf-cookie",
                        tokenKey := "xsrf-token" },
    i := Injector.dflt {} }

/-- `Angular` of xsrf.go: the Lightweight strategy; note it sets no secret
application key. -/
def Angular (cookieName headerName : String) : Interceptor :=
  { secretAppKey := "",
    g := Generator.ang { tokenCookieName := cookieName },
    c := Checker.ang { tokenCookieName := cookieName,
                       tokenHeaderName := headerName },
    i := Injector.ang {} }

/-- Outcome of `Interceptor.Before`: either `w.WriteError(code)` was returned,
or `safehttp.NotWritten()`. -/
inductive BeforeResult
  | wroteError (code : Nat)
  | notWritten
deriving DecidableEq, Repr

/-- `Interceptor.Before` of xsrf.go (lines 81-87). -/
def Interceptor.Before (it : Interceptor) (r : IncomingRequest) (now : Nat) :
    BeforeResult :=
  let code := it.c.Check r now
  if code ≠ StatusOK then BeforeResult.wroteError code
  else BeforeResult.notWritten

/-- Outcome of `Interceptor.Commit`: either `w.WriteError(code)` was returned,
or the commit succeeded with the resulting writer state and response. -/
inductive CommitResult
  | wroteError (code : Nat)
  | committed (w : ResponseWriter) (resp : Response)
deriving DecidableEq, Repr

/-- `Interceptor.Commit` of xsrf.go (lines 89-99). -/
def Interceptor.Commit (it : Interceptor) (w : ResponseWriter)
    (r : IncomingRequest) (resp : Response) (rand : RandSource) (now : Nat) :
    CommitResult :=
  match it.g.Generate r rand now with
  | none => CommitResult.wroteError StatusInternalServerError
  | some data =>
      match it.i.Inject resp w data with
      | none => CommitResult.wroteError StatusInternalServerError
      | some (w', resp') => CommitResult.committed w' resp'

/-- A concrete Default checker, wired like `Default "k"`. -/
def dcFix : defaultChecker :=
  { secretAppKey := "k", cookieIDKey := "xsrf-cookie", tokenKey := "xsrf-token" }

/-- A concrete Default generator, wired like `Default "k"`. -/
def dgFix : defaultGenerator :=
  { secretAppKey := "k", cookieIDKey := "xsrf-cookie" }

/-- A concrete Angular checker for cookie "c" and header "h". -/
def acFix : angularChecker :=
  { tokenCookieName := "c", tokenHeaderName := "h" }

/-- A concrete Angular generator for cookie "c". -/
def agFix : angularGenerator :=
  { tokenCookieName := "c" }

/-- A concrete session cookie named "xsrf-cookie" with value "v". -/
def sessionCookieFix : Cookie := NewCookie "xsrf-cookie" "v"

/-- A concrete Angular token cookie named "c" with value "t". -/
def angCookieFix : Cookie := NewCookie "c" "t"

/-- A bare POST request to path "/p" with no cookies, headers or body. -/
def reqBase : IncomingRequest :=
  { method := "POST", url := { path := "/p" }, cookies := [],
    header := { entries := [] }, postForm := none,
    multipartForm := fun _ => none }

/-- A bare GET request with no cookies, headers or body. -/
def reqGet : IncomingRequest := { reqBase with method := "GET" }

/-- A form carrying a token valid for ("k", "v", "/p") at time 0, err-free. -/
def validForm : Form :=
  { values := [("xsrf-token", TokenStr.mac "k" "v" "/p" 0)], err := false }

/-- The same form but with the sticky accessor error flag set. -/
def errForm : Form :=
  { values := [("xsrf-token", TokenStr.mac "k" "v" "/p" 0)], err := true }

/-- A POST request carrying the session cookie and a valid token form. -/
def reqValid : IncomingRequest :=
  { reqBase with cookies := [sessionCookieFix], postForm := some validForm }

/-- A POST request carrying the session cookie and a form whose accessor
error flag is set even though its token field validates. -/
def reqErrForm : IncomingRequest :=
  { reqBase with cookies := [sessionCookieFix], postForm := some errForm }

/-- A POST request carrying the Angular cookie and a matching header. -/
def reqAngOk : IncomingRequest :=
  { reqBase with cookies := [angCookieFix], header := { entries := [("h", "t")] } }

/-- A POST request carrying the Angular cookie and a mismatched header. -/
def reqAngBad : IncomingRequest :=
  { reqBase with cookies := [angCookieFix], header := { entries := [("h", "u")] } }

/-- A POST request carrying both strategies' cookies and no body. -/
def reqBoth : IncomingRequest :=
  { reqBase with cookies := [sessionCookieFix, angCookieFix] }

/-- `reqAngOk` with a form body attached: differs from it only in a field the
Angular checker never reads. -/
def reqAngOk2 : IncomingRequest := { reqAngOk with postForm := some validForm }

/-- A random source whose reads always fail. -/
def randFail : RandSource := fun _ => none

/-- A random source reading all-zero bytes. -/
def randZeros : RandSource := fun n => some (List.replicate n 0)

/-- The form that `defaultChecker.Check` extracts and reads the token from:
the URL-encoded form body when it parses, otherwise the multipart form under
the 32 MiB cap (the inline fallback of xsrf.go lines 159-169). -/
def checkedForm (r : IncomingRequest) : Option Form :=
  match r.PostForm with
  | some f => some f
  | none => r.MultipartForm (32 <<< 20)

/-- The Default-strategy acceptance condition exactly as claim C1 words it:
the named session cookie is present and the form-borne token validates via
the token codec against (secret key, session cookie value, request URL
path). -/
def claimDefaultAccepts (c : defaultChecker) (r : IncomingRequest)
    (now : Nat) : Prop :=
  ∃ cookie, r.Cookie c.cookieIDKey = some cookie ∧
    ∃ f, checkedForm r = some f ∧
      xsrftoken.Valid (f.String c.tokenKey TokenStr.empty) c.secretAppKey
        cookie.Value r.url.Path now = true

theorem defaultCheck_unfold (c : defaultChecker) (r : IncomingRequest)
    (now : Nat) :
    c.Check r now =
      (if statePreservingMethods r.Method then StatusOK
       else
         match r.Cookie c.cookieIDKey with
         | none => StatusForbidden
         | some cookie =>
           match checkedForm r with
           | none => StatusBadRequest
           | some f =>
             let tok := f.String c.tokenKey TokenStr.empty
             if f.err = true ∨ tok = TokenStr.empty then StatusUnauthorized
             else if !(xsrftoken.Valid tok c.secretAppKey cookie.Value
                 r.url.Path now) then StatusForbidden
             else StatusOK) := rfl

/-- C2: for every request whose method is GET, HEAD or OPTIONS, `Check` of
both the Default and the Lightweight strategy returns 200 OK, for all cookie,
form and header contents of the request. -/
theorem c2_state_preserving_always_ok (dc : defaultChecker)
    (ac : angularChecker) (r : IncomingRequest) (now : Nat)
    (h : r.Method = MethodGet ∨ r.Method = MethodHead ∨
      r.Method = MethodOptions) :
    dc.Check r now = StatusOK ∧ ac.Check r = StatusOK := by
  have hs : statePreservingMethods r.Method = true := by
    unfold statePreservingMethods
    rcases h with h | h | h <;> simp [h]
  constructor
  · unfold defaultChecker.Check
    simp [hs]
  · unfold angularChecker.Check
    simp [hs]

/-- Witness for C2 at a concrete GET request with no cookies at all. -/
theorem c2_witness :
    dcFix.Check reqGet 0 = StatusOK ∧ acFix.Check reqGet = StatusOK :=
  c2_state_preserving_always_ok dcFix acFix reqGet 0 (Or.inl (by decide))

/-- C3: a token generated by the codec for (secret, sessionID, path) within
the validity window is accepted by `Valid` for the same triple, and changing
exactly one of secret, sessionID or path makes `Valid` reject it. -/
theorem c3_token_roundtrip_and_sensitivity
    (secret sessionID path secret2 sessionID2 path2 : String) (t now : Nat)
    (hlo : t ≤ now) (hhi : now < t + xsrftoken.Timeout)
    (hk : secret2 ≠ secret) (hs : sessionID2 ≠ sessionID) (hp : path2 ≠ path) :
    xsrftoken.Valid (xsrftoken.Generate secret sessionID path t)
      secret sessionID path now = true ∧
    xsrftoken.Valid (xsrftoken.Generate secret sessionID path t)
      secret2 sessionID path now = false ∧
    xsrftoken.Valid (xsrftoken.Generate secret sessionID path t)
      secret sessionID2 path now = false ∧
    xsrftoken.Valid (xsrftoken.Generate secret sessionID path t)
      secret sessionID path2 now = false := by
  refine ⟨?_, ?_, ?_, ?_⟩ <;>
    simp [xsrftoken.Valid, xsrftoken.Generate, hlo, hhi,
      Ne.symm hk, Ne.symm hs, Ne.symm hp]

/-- Witness for C3 at concrete triples and a time inside the window. -/
theorem c3_witness :
    xsrftoken.Valid (xsrftoken.Generate "k" "v" "/p" 0) "k" "v" "/p" 7
      = true ∧
    xsrftoken.Valid (xsrftoken.Generate "k" "v" "/p" 0) "k2" "v" "/p" 7
      = false ∧
    xsrftoken.Valid (xsrftoken.Generate "k" "v" "/p" 0) "k" "v2" "/p" 7
      = false ∧
    xsrftoken.Valid (xsrftoken.Generate "k" "v" "/p" 0) "k" "v" "/p2" 7
      = false :=
  c3_token_roundtrip_and_sensitivity "k" "v" "/p" "k2" "v2" "/p2" 0 7
    (by decide) (by decide) (by decide) (by decide) (by decide)

/-- C4: for every non-state-preserving request the Default `Check` evaluates
its conditions in a fixed order and the first failing condition determines
the result: missing cookie ⇒ 403; body parseable neither as URL-encoded nor
as 32 MiB-capped multipart form ⇒ 400; form error or missing/empty token ⇒
401; token failing validation ⇒ 403; otherwise 200. -/
theorem c4_default_check_first_failure (c : defaultChecker)
    (r : IncomingRequest) (now : Nat)
    (h : statePreservingMethods r.Method = false) :
    (r.Cookie c.cookieIDKey = none → c.Check r now = StatusForbidden) ∧
    (∀ cookie, r.Cookie c.cookieIDKey = some cookie → checkedForm r = none →
      c.Check r now = StatusBadRequest) ∧
    (∀ cookie f, r.Cookie c.cookieIDKey = some cookie →
      checkedForm r = some f →
      (f.err = true ∨ f.String c.tokenKey TokenStr.empty = TokenStr.empty) →
      c.Check r now = StatusUnauthorized) ∧
    (∀ cookie f, r.Cookie c.cookieIDKey = some cookie →
      checkedForm r = some f → f.err = false →
      f.String c.tokenKey TokenStr.empty ≠ TokenStr.empty →
      xsrftoken.Valid (f.String c.tokenKey TokenStr.empty) c.secretAppKey
        cookie.Value r.url.Path now = false →
      c.Check r now = StatusForbidden) ∧
    (∀ cookie f, r.Cookie c.cookieIDKey = some cookie →
      checkedForm r = some f → f.err = false →
      f.String c.tokenKey TokenStr.empty ≠ TokenStr.empty →
      xsrftoken.Valid (f.String c.tokenKey TokenStr.empty) c.secretAppKey
        cookie.Value r.url.Path now = true →
      c.Check r now = StatusOK) := by
  refine ⟨?_, ?_, ?_, ?_, ?_⟩
  · intro hc
    rw [defaultCheck_unfold]
    simp [h, hc]
  · intro cookie hc hf
    rw [defaultCheck_unfold]
    simp [h, hc, hf]
  · intro cookie f hc hf htok
    rw [defaultCheck_unfold]
    simp only [h, Bool.false_eq_true, if_false, hc, hf]
    rw [if_pos htok]
  · intro cookie f hc hf herr hne hv
    rw [defaultCheck_unfold]
    simp only [h, Bool.false_eq_true, if_false, hc, hf]
    rw [if_neg (by simp [herr, hne]), if_pos (by simp [hv])]
  · intro cookie f hc hf herr hne hv
    rw [defaultCheck_unfold]
    simp only [h, Bool.false_eq_true, if_false, hc, hf]
    rw [if_neg (by simp [herr, hne]), if_neg (by simp [hv])]

/-- Witness for C4 at concrete requests exercising the 403-missing-cookie and
the 200 branches. -/
theorem c4_witness :
    dcFix.Check reqBase 0 = StatusForbidden ∧
    dcFix.Check reqValid 0 = StatusOK :=
  ⟨(c4_default_check_first_failure dcFix reqBase 0 (by decide)).1 (by decide),
   (c4_default_check_first_failure dcFix reqValid 0 (by decide)).2.2.2.2
     sessionCookieFix validForm (by decide) (by decide) (by decide)
     (by decide) (by decide)⟩

/-- C1 fails as stated: on a POST request carrying the session cookie and a
URL-encoded form whose token field validates for (secret, cookie value, path)
but whose sticky accessor error flag is set, the Default `Check` returns 401,
not 200, although the claim's acceptance condition holds. -/
theorem c1_counterexample :
    ¬ (dcFix.Check reqErrForm 0 = StatusOK ↔
       claimDefaultAccepts dcFix reqErrForm 0) := by
  intro h
  have hacc : claimDefaultAccepts dcFix reqErrForm 0 :=
    ⟨sessionCookieFix, by decide, errForm, by decide, by decide⟩
  exact absurd (h.mpr hacc) (by decide)

/-- C1 (amended): for every non-state-preserving request, the Default `Check`
returns 200 iff the named session cookie is present, a form is obtained from
the body, the form's accessor reports no error, and the form-borne token
validates via the codec against (secret key, session cookie value, request
URL path); the Lightweight `Check` returns 200 iff the named cookie is
present and the configured header's value is non-empty and byte-for-byte
equal to the cookie's value. -/
theorem c1_check_ok_iff (dc : defaultChecker) (ac : angularChecker)
    (r : IncomingRequest) (now : Nat)
    (h : statePreservingMethods r.Method = false) :
    (dc.Check r now = StatusOK ↔
      ∃ cookie, r.Cookie dc.cookieIDKey = some cookie ∧
        ∃ f, checkedForm r = some f ∧ f.err = false ∧
          xsrftoken.Valid (f.String dc.tokenKey TokenStr.empty)
            dc.secretAppKey cookie.Value r.url.Path now = true) ∧
    (ac.Check r = StatusOK ↔
      ∃ cookie, r.Cookie ac.tokenCookieName = some cookie ∧
        r.header.Get ac.tokenHeaderName ≠ "" ∧
        r.header.Get ac.tokenHeaderName = cookie.Value) := by
  constructor
  · constructor
    · intro hok
      rcases hc : r.Cookie dc.cookieIDKey with _ | cookie
      · have hval : dc.Check r now = StatusForbidden := by
          rw [defaultCheck_unfold]
          simp [h, hc]
        rw [hok] at hval
        exact absurd hval (by decide)
      rcases hf : checkedForm r with _ | f
      · have hval : dc.Check r now = StatusBadRequest := by
          rw [defaultCheck_unfold]
          simp [h, hc, hf]
        rw [hok] at hval
        exact absurd hval (by decide)
      by_cases he : f.err = true ∨
          f.String dc.tokenKey TokenStr.empty = TokenStr.empty
      · have hval : dc.Check r now = StatusUnauthorized := by
          rw [defaultCheck_unfold]
          simp only [h, Bool.false_eq_true, if_false, hc, hf]
          rw [if_pos he]
        rw [hok] at hval
        exact absurd hval (by decide)
      by_cases hv : xsrftoken.Valid (f.String dc.tokenKey TokenStr.empty)
          dc.secretAppKey cookie.Value r.url.Path now = true
      · exact ⟨cookie, rfl, f, rfl,
          (Bool.not_eq_true _).mp (not_or.mp he).1, hv⟩
      · have hval : dc.Check r now = StatusForbidden := by
          rw [defaultCheck_unfold]
          simp only [h, Bool.false_eq_true, if_false, hc, hf]
          rw [if_neg he, if_pos (by simp [(Bool.not_eq_true _).mp hv])]
        rw [hok] at hval
        exact absurd hval (by decide)
    · rintro ⟨cookie, hc, f, hf, herr, hv⟩
      rw [defaultCheck_unfold]
      simp only [h, Bool.false_eq_true, if_false, hc, hf]
      have hne : f.String dc.tokenKey TokenStr.empty ≠ TokenStr.empty := by
        intro htok
        rw [htok] at hv
        simp [xsrftoken.Valid] at hv
      rw [if_neg (by simp [herr, hne]), if_neg (by simp [hv])]
  · constructor
    · intro hok
      rcases hc : r.Cookie ac.tokenCookieName with _ | cookie
      · have hval : ac.Check r = StatusForbidden := by
          unfold angularChecker.Check
          simp [h, hc]
        rw [hok] at hval
        exact absurd hval (by decide)
      by_cases htok : r.header.Get ac.tokenHeaderName = "" ∨
          r.header.Get ac.tokenHeaderName ≠ cookie.Value
      · have hval : ac.Check r = StatusUnauthorized := by
          unfold angularChecker.Check
          simp only [h, Bool.false_eq_true, if_false, hc]
          rw [if_pos htok]
        rw [hok] at hval
        exact absurd hval (by decide)
      · push_neg at htok
        exact ⟨cookie, rfl, htok.1, htok.2⟩
    · rintro ⟨cookie, hc, hne, heq⟩
      unfold angularChecker.Check
      simp only [h, Bool.false_eq_true, if_false, hc]
      rw [if_neg (by push_neg; exact ⟨hne, heq⟩)]

/-- Witness for the amended C1 at concrete accepting requests for both
strategies. -/
theorem c1_witness :
    ((dcFix.Check reqValid 5 = StatusOK ↔
      ∃ cookie, reqValid.Cookie dcFix.cookieIDKey = some cookie ∧
        ∃ f, checkedForm reqValid = some f ∧ f.err = false ∧
          xsrftoken.Valid (f.String dcFix.tokenKey TokenStr.empty)
            dcFix.secretAppKey cookie.Value reqValid.url.Path 5 = true) ∧
     (acFix.Check reqValid = StatusOK ↔
      ∃ cookie, reqValid.Cookie acFix.tokenCookieName = some cookie ∧
        reqValid.header.Get acFix.tokenHeaderName ≠ "" ∧
        reqValid.header.Get acFix.tokenHeaderName = cookie.Value)) :=
  c1_check_ok_iff dcFix acFix reqValid 5 (by decide)

/-- C5: on a request already carrying the named session cookie, `Generate` of
either strategy returns a payload with the cookie-needs-setting flag false
and the request's own cookie (not a freshly minted one); consequently the
matching `Inject` marks no new cookie for setting. -/
theorem c5_no_cookie_reissue (g : defaultGenerator) (ag : angularGenerator)
    (r : IncomingRequest) (rand : RandSource) (now : Nat) (c c2 : Cookie)
    (h : r.Cookie g.cookieIDKey = some c)
    (h2 : r.Cookie ag.tokenCookieName = some c2) :
    g.Generate r rand now =
      some (GeneratedData.default
        { cookieID := c,
          token := xsrftoken.Generate g.secretAppKey c.Value r.url.Path now,
          setCookie := false }) ∧
    ag.Generate r rand =
      some (GeneratedData.angular { tokCookie := c2, setCookie := false }) ∧
    (∀ i w resp tok,
      (defaultInjector.Inject i resp w
        (GeneratedData.default
          { cookieID := c, token := tok, setCookie := false })).map
            Prod.fst = some w) ∧
    (∀ i w resp,
      (angularInjector.Inject i resp w
        (GeneratedData.angular
          { tokCookie := c2, setCookie := false })).map Prod.fst = some w) := by
  refine ⟨?_, ?_, ?_, ?_⟩
  · unfold defaultGenerator.Generate
    rw [h]
  · unfold angularGenerator.Generate
    rw [h2]
  · intro i w resp tok
    unfold defaultInjector.Inject
    cases resp <;> simp
  · intro i w resp
    unfold angularInjector.Inject
    simp

/-- Witness for C5 at a concrete request carrying both strategies' cookies. -/
theorem c5_witness :
    dgFix.Generate reqBoth randFail 3 =
      some (GeneratedData.default
        { cookieID := sessionCookieFix,
          token := xsrftoken.Generate "k" "v" "/p" 3, setCookie := false }) ∧
    agFix.Generate reqBoth randFail =
      some (GeneratedData.angular
        { tokCookie := angCookieFix, setCookie := false }) ∧
    (∀ i w resp tok,
      (defaultInjector.Inject i resp w
        (GeneratedData.default
          { cookieID := sessionCookieFix, token := tok,
            setCookie := false })).map Prod.fst = some w) ∧
    (∀ i w resp,
      (angularInjector.Inject i resp w
        (GeneratedData.angular
          { tokCookie := angCookieFix, setCookie := false })).map
            Prod.fst = some w) :=
  c5_no_cookie_reissue dgFix agFix reqBoth randFail 3
    sessionCookieFix angCookieFix (by decide) (by decide)

/-- C6: whenever the generator errors, or the injector errors — in particular
on a payload-variant/injector mismatch — `Interceptor.Commit` writes the
generic 500 Internal Server Error status and nothing more specific. -/
theorem c6_commit_errors_are_500 (it : Interceptor) (w : ResponseWriter)
    (r : IncomingRequest) (resp : Response) (rand : RandSource) (now : Nat) :
    (it.g.Generate r rand now = none →
      it.Commit w r resp rand now =
        CommitResult.wroteError StatusInternalServerError) ∧
    (∀ data, it.g.Generate r rand now = some data →
      it.i.Inject resp w data = none →
      it.Commit w r resp rand now =
        CommitResult.wroteError StatusInternalServerError) ∧
    (∀ i d, defaultInjector.Inject i resp w (GeneratedData.angular d) =
      none) ∧
    (∀ i d, angularInjector.Inject i resp w (GeneratedData.default d) =
      none) := by
  refine ⟨?_, ?_, ?_, ?_⟩
  · intro hg
    unfold Interceptor.Commit
    rw [hg]
  · intro data hg hi
    unfold Interceptor.Commit
    rw [hg]
    simp [hi]
  · intro i d
    unfold defaultInjector.Inject
    rfl
  · intro i d
    unfold angularInjector.Inject
    rfl

/-- Witness for C6: a mismatched interceptor (Angular generator with the
Default injector) commits to the generic 500 on a concrete request. -/
theorem c6_witness :
    (New "k" (Generator.ang agFix) (Checker.ang acFix)
        (Injector.dflt {})).Commit
      { setCookies := [] } reqBoth Response.other randFail 0 =
      CommitResult.wroteError StatusInternalServerError :=
  (c6_commit_errors_are_500
      (New "k" (Generator.ang agFix) (Checker.ang acFix) (Injector.dflt {}))
      { setCookies := [] } reqBoth Response.other randFail 0).2.1
    (GeneratedData.angular { tokCookie := angCookieFix, setCookie := false })
    (by decide) (by decide)

/-- C7: the Angular `Generate`, on a request lacking the named cookie, mints
a cookie whose value is the standard base64 encoding of the 20 random bytes
read, carrying SameSite=Strict, Path="/", Max-Age=86400 and HTTP-only
disabled, and flags it for setting. -/
theorem c7_angular_mint (g : angularGenerator) (r : IncomingRequest)
    (rand : RandSource) (buf : List Nat)
    (h : r.Cookie g.tokenCookieName = none) (hr : rand 20 = some buf) :
    g.Generate r rand =
      some (GeneratedData.angular
        { tokCookie :=
            { name := g.tokenCookieName, value := base64Encode buf,
              sameSite := SameSite.strictMode, path := "/",
              maxAge := some 86400, httpOnly := false },
          setCookie := true }) := by
  unfold angularGenerator.Generate
  rw [h, hr]
  rfl

/-- Witness for C7: a cookie minted from 20 zero bytes on a bare request. -/
theorem c7_witness :
    agFix.Generate reqBase randZeros =
      some (GeneratedData.angular
        { tokCookie :=
            { name := "c", value := base64Encode (List.replicate 20 0),
              sameSite := SameSite.strictMode, path := "/",
              maxAge := some 86400, httpOnly := false },
          setCookie := true }) :=
  c7_angular_mint agFix reqBase randZeros (List.replicate 20 0)
    (by decide) (by decide)

/-- C8: `Interceptor.Before` returns the written-error result carrying the
checker's status exactly when that status is not 200 OK, and the
not-written/continue result exactly when it is 200 OK. -/
theorem c8_before_short_circuits (it : Interceptor) (r : IncomingRequest)
    (now : Nat) :
    (it.c.Check r now = StatusOK →
      it.Before r now = BeforeResult.notWritten) ∧
    (it.c.Check r now ≠ StatusOK →
      it.Before r now = BeforeResult.wroteError (it.c.Check r now)) := by
  constructor
  · intro hok
    unfold Interceptor.Before
    simp [hok]
  · intro hne
    unfold Interceptor.Before
    simp [hne]

/-- Witness for C8: an accepted GET continues unmodified; a rejected POST
short-circuits with the checker's own status. -/
theorem c8_witness :
    (Angular "c" "h").Before reqGet 0 = BeforeResult.notWritten ∧
    (Angular "c" "h").Before reqBase 0 =
      BeforeResult.wroteError
        (Checker.Check (Angular "c" "h").c reqBase 0) :=
  ⟨(c8_before_short_circuits (Angular "c" "h") reqGet 0).1 (by decide),
   (c8_before_short_circuits (Angular "c" "h") reqBase 0).2 (by decide)⟩

theorem angularCheck_depends_only (ac : angularChecker)
    (r r2 : IncomingRequest) (hm : r.Method = r2.Method)
    (hc : r.Cookie ac.tokenCookieName = r2.Cookie ac.tokenCookieName)
    (hh : r.header.Get ac.tokenHeaderName =
      r2.header.Get ac.tokenHeaderName) :
    ac.Check r = ac.Check r2 := by
  unfold angularChecker.Check
  rw [hm, hc, hh]

/-- C9: the Lightweight strategy never consults the secret application key:
the `Angular` constructor leaves `secretAppKey` empty, interceptors built
from the Angular triple behave identically under any two secret keys, and
the Angular checker's status is a function only of the request's method, the
named cookie and the named header. -/
theorem c9_angular_ignores_secret (cookieName headerName : String) :
    (Angular cookieName headerName).secretAppKey = "" ∧
    (∀ key1 key2 : String, ∀ r : IncomingRequest, ∀ now : Nat,
      (New key1 (Angular cookieName headerName).g
          (Angular cookieName headerName).c
          (Angular cookieName headerName).i).Before r now =
      (New key2 (Angular cookieName headerName).g
          (Angular cookieName headerName).c
          (Angular cookieName headerName).i).Before r now) ∧
    (∀ r r2 : IncomingRequest, ∀ now now2 : Nat,
      r.Method = r2.Method →
      r.Cookie cookieName = r2.Cookie cookieName →
      r.header.Get headerName = r2.header.Get headerName →
      Checker.Check (Angular cookieName headerName).c r now =
        Checker.Check (Angular cookieName headerName).c r2 now2) := by
  refine ⟨rfl, fun key1 key2 r now => rfl, ?_⟩
  intro r r2 now now2 hm hc hh
  exact angularCheck_depends_only
    { tokenCookieName := cookieName, tokenHeaderName := headerName }
    r r2 hm hc hh

/-- Witness for C9: two concrete requests differing only in their form body
get the same status from the Angular checker, at different secret-free
interceptors and times. -/
theorem c9_witness :
    Checker.Check (Angular "c" "h").c reqAngOk 0 =
      Checker.Check (Angular "c" "h").c reqAngOk2 1 :=
  (c9_angular_ignores_secret "c" "h").2.2 reqAngOk reqAngOk2 0 1
    (by decide) (by decide) (by decide)

/-- C10: `Generate` of either strategy fails exactly when the request lacks
the named cookie and the random source's read fails; in that case it returns
no generated data at all, and a request already carrying the cookie can never
make `Generate` fail. -/
theorem c10_generate_none_iff (g : defaultGenerator) (ag : angularGenerator)
    (r : IncomingRequest) (rand : RandSource) (now : Nat) :
    (g.Generate r rand now = none ↔
      (r.Cookie g.cookieIDKey = none ∧ rand 20 = none)) ∧
    (ag.Generate r rand = none ↔
      (r.Cookie ag.tokenCookieName = none ∧ rand 20 = none)) := by
  constructor
  · unfold defaultGenerator.Generate
    rcases hc : r.Cookie g.cookieIDKey with _ | c
    · rcases hr : rand 20 with _ | buf <;> simp [hr]
    · simp
  · unfold angularGenerator.Generate
    rcases hc : r.Cookie ag.tokenCookieName with _ | c
    · rcases hr : rand 20 with _ | buf <;> simp [hr]
    · simp

end Xsrf
